import Mathlib

/-!
Shallow embedding of the client-side session controller in
`src/static/app.js` of the Viet_Su_Tri VietNamese-History repository:
dual-thread conversation state, file-upload staging, single-flight request
dispatch, response rendering and destructive-action confirmation.

Pure functions of the source (`formatMessage`, `getDomainFromUrl`,
`handleFileSelect`, `removePDFFile`) become Lean functions over
`List Char` / lists; the stateful `sendMessage` / `switchMode` /
clear-confirmation flow becomes explicit state passing over an `AppState`
record, with the single `await fetch` suspension point of `sendMessage`
split into a synchronous prefix (`sendMessageStart`) and a continuation
run when the response arrives (`sendMessageResume`), whose outcome is
chosen by the environment.
-/

/-! ## MessageRenderer: `formatMessage` (src/static/app.js lines 263-269)

The source applies three global regex replacements in order:
`.replace(/\*\*(.*?)\*\*/g,'<strong>$1</strong>')`, then
`.replace(/\*(.*?)\*/g,'<em>$1</em>')`, then `.replace(/\n/g,'<br>')`.
The lazy group `(.*?)` is modelled by a scan that closes at the earliest
closing marker; `.` in a JavaScript regex (no `s` flag) matches every
character except the four line terminators. -/

/-- Whether `.` in a JavaScript regex without the `s` flag matches `c`:
every character except LF, CR, LS and PS. -/
def jsDotMatches (c : Char) : Bool :=
  !(c == '\n' || c == '\r' || c == '\u2028' || c == '\u2029')

/-- Lazy completion of `(.*?)\*\*` after an opening `**`: the shortest
capture (of dot-matching characters) followed by a closing `**`.
Returns the capture and the remainder after the closing marker. -/
def findBoldClose : List Char → Option (List Char × List Char)
  | [] => none
  | [_] => none
  | c :: d :: rest =>
    if c == '*' && d == '*' then some ([], rest)
    else if jsDotMatches c then
      match findBoldClose (d :: rest) with
      | some (cap, r) => some (c :: cap, r)
      | none => none
    else none

/-- One global pass of `/\*\*(.*?)\*\*/g → <strong>$1</strong>`.
`fuel` only drives the recursion: every step strictly shortens the list
(a skipped character, or a match consuming at least four characters), so
`fuel = length` never runs out before the list is empty. On a failed
match attempt the scan advances by one character, as the regex engine
does; replacement text is not rescanned. -/
def replaceBoldFuel : Nat → List Char → List Char
  | 0, l => l
  | _ + 1, [] => []
  | fuel + 1, c :: rest =>
    if c == '*' && rest.head? == some '*' then
      match findBoldClose rest.tail with
      | some (cap, r) =>
          "<strong>".data ++ cap ++ "</strong>".data ++ replaceBoldFuel fuel r
      | none => c :: replaceBoldFuel fuel rest
    else c :: replaceBoldFuel fuel rest

/-- Lazy completion of `(.*?)\*` after an opening `*`: the shortest
capture (of dot-matching characters) followed by a closing `*`. -/
def findItalClose : List Char → Option (List Char × List Char)
  | [] => none
  | c :: rest =>
    if c == '*' then some ([], rest)
    else if jsDotMatches c then
      match findItalClose rest with
      | some (cap, r) => some (c :: cap, r)
      | none => none
    else none

/-- One global pass of `/\*(.*?)\*/g → <em>$1</em>`, same conventions as
the bold pass. -/
def replaceItalFuel : Nat → List Char → List Char
  | 0, l => l
  | _ + 1, [] => []
  | fuel + 1, c :: rest =>
    if c == '*' then
      match findItalClose rest with
      | some (cap, r) =>
          "<em>".data ++ cap ++ "</em>".data ++ replaceItalFuel fuel r
      | none => c :: replaceItalFuel fuel rest
    else c :: replaceItalFuel fuel rest

/-- `/\n/g → <br>`. -/
def replaceNlL : List Char → List Char
  | [] => []
  | c :: rest => (if c == '\n' then "<br>".data else [c]) ++ replaceNlL rest

/-- Bold pass entry point. -/
def replaceBoldL (l : List Char) : List Char := replaceBoldFuel l.length l

/-- Italic pass entry point. -/
def replaceItalL (l : List Char) : List Char := replaceItalFuel l.length l

/-- `formatMessage` (app.js 263-269): bold pass, then italic pass, then
newline pass, in that order. -/
def formatMessage (s : String) : String :=
  ⟨replaceNlL (replaceItalL (replaceBoldL s.data))⟩

/-! ## MessageRenderer: `getDomainFromUrl` (app.js 219-226)

The source runs `new URL(url).hostname` and then the string (not regex)
replacement `.replace('www.', '')`, which removes only the first
occurrence of the substring `"www."`, wherever it occurs; if the URL
constructor throws, the fixed placeholder is returned. The browser's URL
parser is an external platform API, so it is modelled as an input:
`some hostname` when the URL parses, `none` when the constructor throws. -/

/-- JavaScript `String.prototype.replace` with a plain-string pattern and
empty replacement: removes the first occurrence of `pat`, if any. -/
def stripFirst (pat : List Char) : List Char → List Char
  | [] => []
  | c :: rest =>
    if pat.isPrefixOf (c :: rest) then (c :: rest).drop pat.length
    else c :: stripFirst pat rest

/-- Whether `pat` occurs as a contiguous sublist of `l`. -/
def containsSub (pat : List Char) (l : List Char) : Bool :=
  match l with
  | [] => pat.isPrefixOf ([] : List Char)
  | _ :: rest => pat.isPrefixOf l || containsSub pat rest

/-- The character list of the literal pattern `'www.'`. -/
def wwwPattern : List Char := ['w', 'w', 'w', '.']

/-- `getDomainFromUrl` (app.js 219-226): takes the hostname produced by
the external `new URL(url)` parse (`none` when that constructor throws)
and removes the first occurrence of `"www."`. -/
def getDomainFromUrl (parsedHostname : Option String) : String :=
  match parsedHostname with
  | some host => ⟨stripFirst wwwPattern host.data⟩
  | none => "Nguồn tham khảo"

/-! ## UploadStager: `handleFileSelect` / `removePDFFile` (app.js 487-558)

A staged file in `uploadedPDFs` stores `{name, size, file, id}`; the
binary `file` handle is opaque and never inspected, so it is omitted.
The `id` is `Date.now() + Math.random()` in the source — an
environment-chosen token with no structure the code relies on — so each
candidate carries the id the environment would assign it. -/

/-- One entry of `uploadedPDFs` (app.js 504-509), minus the opaque binary
handle. -/
structure StagedPDF where
  name : String
  size : Nat
  id : Nat
deriving DecidableEq

/-- One element of `event.target.files` as `handleFileSelect` reads it:
`file.type`, `file.name`, `file.size`, plus the id the environment would
assign on acceptance. -/
structure FileCandidate where
  name : String
  size : Nat
  ftype : String
  id : Nat
deriving DecidableEq

/-- The body of the `files.forEach` callback in `handleFileSelect`
(app.js 490-515): reject non-PDF type, reject size over 10 MB, reject a
(name, size) key already staged, otherwise append. Each rejection only
returns from the callback, so it never blocks later candidates. -/
def addCandidate (pdfs : List StagedPDF) (f : FileCandidate) : List StagedPDF :=
  if f.ftype == "application/pdf" then
    if f.size > 10 * 1024 * 1024 then pdfs
    else if pdfs.any (fun p => p.name == f.name && p.size == f.size) then pdfs
    else pdfs ++ [⟨f.name, f.size, f.id⟩]
  else pdfs

/-- `handleFileSelect` (app.js 487-521): fold the forEach callback over
the selected files. -/
def handleFileSelect (pdfs : List StagedPDF) (files : List FileCandidate) :
    List StagedPDF :=
  files.foldl addCandidate pdfs

/-- `removePDFFile` (app.js 550-558): `findIndex` on id, then
`splice(index, 1)` when found. -/
def removePDFFile (pdfs : List StagedPDF) (fileId : Nat) : List StagedPDF :=
  match pdfs.findIdx? (fun p => p.id == fileId) with
  | some i => pdfs.eraseIdx i
  | none => pdfs

/-- The operations that mutate `uploadedPDFs` anywhere in the source:
a file-select batch, a single removal, and the `uploadedPDFs = []`
reset inside the `clearPDFChat` confirmation callback (app.js 432). -/
inductive StagerOp where
  | select (files : List FileCandidate)
  | remove (fileId : Nat)
  | clear
deriving DecidableEq

/-- Apply one `StagerOp`. -/
def applyStagerOp (pdfs : List StagedPDF) : StagerOp → List StagedPDF
  | .select files => handleFileSelect pdfs files
  | .remove fileId => removePDFFile pdfs fileId
  | .clear => []

/-- Run a sequence of stager operations from the initial empty
`uploadedPDFs`. -/
def runStagerOps (ops : List StagerOp) : List StagedPDF :=
  ops.foldl applyStagerOp []

/-- Two staged entries collide when they agree on the (name, size)
uniqueness key. -/
def keyClash (a b : StagedPDF) : Prop := a.name = b.name ∧ a.size = b.size

/-- No two entries of the staged set share the (name, size) key. -/
def NoDupKey (l : List StagedPDF) : Prop :=
  l.Pairwise (fun a b => ¬ keyClash a b)

/-! ## Session state and `sendMessage` / `switchMode` / clear flow

`AppState` gathers the module-level mutable variables of app.js that the
controller logic reads or writes (`currentMode`, `isTyping`,
`historyMessages`, `pdfMessages`, `uploadedPDFs`) together with the
observable rendering surface: `rendered` models the message nodes
appended to `#chatMessages` by `addMessage` (each tagged with the
`data-mode` attribute set from `currentMode` at render time, app.js 165),
and `toasts` the texts passed to `showToast`. `hideCalls` counts
invocations of `hideTypingIndicator` and `netCalls` invocations of
`fetch`, so that once-per-path properties are statable. -/

/-- A stored message object (app.js 73-77 and 139-144): `sourceUrls` is
`none` where the source leaves the field undefined. -/
structure Message where
  content : String
  sender : String
  sourceUrls : Option (List String)
  timestamp : String
deriving DecidableEq

/-- A message node appended to `#chatMessages` by `addMessage`
(app.js 162-217): raw content, sender, the sourceUrls argument, and the
`data-mode` attribute — `currentMode` at the moment `addMessage` ran. -/
structure RenderedMsg where
  content : String
  sender : String
  sourceUrls : Option (List String)
  dataMode : String
deriving DecidableEq

/-- The mutable session state of app.js plus observation counters. -/
structure AppState where
  currentMode : String
  isTyping : Bool
  historyMessages : List Message
  pdfMessages : List Message
  uploadedPDFs : List StagedPDF
  rendered : List RenderedMsg
  toasts : List String
  hideCalls : Nat
  netCalls : Nat
deriving DecidableEq

/-- State at page load (app.js 5-14). -/
def initialState : AppState :=
  { currentMode := "history", isTyping := false, historyMessages := [],
    pdfMessages := [], uploadedPDFs := [], rendered := [], toasts := [],
    hideCalls := 0, netCalls := 0 }

/-- Toast shown when sending in pdf mode with no staged file (app.js 65). -/
def pdfRequiredToast : String :=
  "Vui lòng tải lên ít nhất một file PDF trước khi đặt câu hỏi"

/-- Fallback AI text appended on `success:false` (app.js 152). -/
def backendFallback : String :=
  "Xin lỗi, đã có lỗi xảy ra khi xử lý câu hỏi của bạn. Vui lòng thử lại."

/-- Fallback AI text appended in the catch block (app.js 158). -/
def transportFallback : String :=
  "Xin lỗi, không thể kết nối với server. Vui lòng kiểm tra kết nối mạng và thử lại."

/-- `addMessage(content, sender, sourceUrls)` as far as session state is
concerned: appends one node to `#chatMessages`, stamped with the current
mode (app.js 162-217). -/
def addMessageS (s : AppState) (content sender : String)
    (sourceUrls : Option (List String)) : AppState :=
  { s with rendered := s.rendered ++ [⟨content, sender, sourceUrls, s.currentMode⟩] }

/-- `showToast` (app.js 238-261): records the toast text. -/
def showToastS (s : AppState) (msg : String) : AppState :=
  { s with toasts := s.toasts ++ [msg] }

/-- `showTypingIndicator` (app.js 271-278): sets the in-flight guard. -/
def showTypingIndicatorS (s : AppState) : AppState :=
  { s with isTyping := true }

/-- `hideTypingIndicator` (app.js 280-286): clears the in-flight guard;
the counter observes that the call happened. -/
def hideTypingIndicatorS (s : AppState) : AppState :=
  { s with isTyping := false, hideCalls := s.hideCalls + 1 }

/-- JavaScript `String.prototype.trim` whitespace (WhiteSpace and
LineTerminator code points; the common ones suffice for the inputs the
client can see). -/
def isJsWhitespace (c : Char) : Bool :=
  c == ' ' || c == '\t' || c == '\n' || c == '\r' || c == '\x0b' ||
  c == '\x0c' || c == '\u00A0' || c == '\uFEFF' || c == '\u2028' || c == '\u2029'

/-- `messageInput.value.trim()` (app.js 60). -/
def jsTrim (s : String) : String :=
  ⟨((s.data.dropWhile isJsWhitespace).reverse.dropWhile isJsWhitespace).reverse⟩

/-- Synchronous prefix of `sendMessage` (app.js 59-123), up to the
`await fetch`. Arguments: the raw `messageInput.value` and the ISO
timestamp the environment clock would produce. Returns the state when
control reaches the suspension point, and `some dispatchMode` when a
fetch was issued (the request now in flight). When `currentMode` is
neither "history" nor "pdf", neither fetch branch assigns `response`, so
`response.ok` throws and the catch block (app.js 155-159) runs
synchronously: guard released, transport fallback appended, no fetch. -/
def sendMessageStart (s : AppState) (input now : String) :
    AppState × Option String :=
  let message := jsTrim input
  if message = "" ∨ s.isTyping = true then (s, none)
  else if s.currentMode = "pdf" ∧ s.uploadedPDFs.length = 0 then
    (showToastS s pdfRequiredToast, none)
  else
    let s1 := addMessageS s message "user" none
    let s2 :=
      if s.currentMode = "history" then
        { s1 with historyMessages := s1.historyMessages ++ [⟨message, "user", none, now⟩] }
      else
        { s1 with pdfMessages := s1.pdfMessages ++ [⟨message, "user", none, now⟩] }
    let s3 := showTypingIndicatorS s2
    if s.currentMode = "history" ∨ s.currentMode = "pdf" then
      ({ s3 with netCalls := s3.netCalls + 1 }, some s.currentMode)
    else
      (addMessageS (hideTypingIndicatorS s3) transportFallback "ai" none, none)

/-- How the awaited `fetch` + `response.json()` resolves, chosen by the
environment: a well-formed body with `success:true`, a well-formed body
with `success:false`, or a transport failure (rejected fetch, non-2xx
status, or malformed body) carrying the technical error text. -/
inductive FetchOutcome where
  | success (answer : String) (sourceUrls : Option (List String))
  | backendFailure
  | transportFailure (error : String)

/-- Continuation of `sendMessage` from the suspension point
(app.js 125-159), run against the state current when the response
arrives. Note every branch reads `currentMode` from that arrival-time
state: line 146 re-checks `currentMode` after the `await`. -/
def sendMessageResume (s : AppState) (now : String) (o : FetchOutcome) :
    AppState :=
  match o with
  | .success answer urls =>
    let s1 := hideTypingIndicatorS s
    let s2 := addMessageS s1 answer "ai" urls
    if s.currentMode = "history" then
      { s2 with historyMessages := s2.historyMessages ++ [⟨answer, "ai", urls, now⟩] }
    else
      { s2 with pdfMessages := s2.pdfMessages ++ [⟨answer, "ai", urls, now⟩] }
  | .backendFailure =>
    addMessageS (hideTypingIndicatorS s) backendFallback "ai" none
  | .transportFailure _ =>
    addMessageS (hideTypingIndicatorS s) transportFallback "ai" none

/-- `loadMessages(mode)` (app.js 373-388): removes every rendered message
node and re-renders the given mode's stored thread through `addMessage`,
which stamps each node with the now-current mode. -/
def loadMessagesS (s : AppState) (mode : String) : AppState :=
  let toLoad := if mode = "history" then s.historyMessages else s.pdfMessages
  { s with rendered :=
      toLoad.map (fun m => ⟨m.content, m.sender, m.sourceUrls, s.currentMode⟩) }

/-- `switchMode(mode)` (app.js 327-364): assigns `currentMode := mode`
unconditionally (line 328) and only then branches on the value; only the
"history" and "pdf" branches re-render a thread. -/
def switchMode (s : AppState) (mode : String) : AppState :=
  let s0 := { s with currentMode := mode }
  if mode = "history" then loadMessagesS s0 "history"
  else if mode = "pdf" then loadMessagesS s0 "pdf"
  else s0

/-- Toast text of the history-clear confirmation callback (app.js 415;
the source literal ends in three corrupted bytes rendered U+FFFD). -/
def clearedHistoryToast : String :=
  "Đã xóa tất cả tin nhắn lịch s���!"

/-- Toast text of the pdf-clear confirmation callback (app.js 446). -/
def clearedPDFToast : String := "Đã xóa tất cả tin nhắn PDF và file PDF!"

/-- The confirmation callback registered by `clearHistoryMode`
(app.js 402-417): empties `historyMessages` and removes the rendered
nodes whose `data-mode` is "history". -/
def clearHistoryConfirmed (s : AppState) : AppState :=
  showToastS
    { s with historyMessages := [],
             rendered := s.rendered.filter (fun m => !(m.dataMode == "history")) }
    clearedHistoryToast

/-- The confirmation callback registered by `clearPDFChat`
(app.js 427-448): empties `pdfMessages` and `uploadedPDFs` and removes
the rendered nodes whose `data-mode` is "pdf". -/
def clearPDFChatConfirmed (s : AppState) : AppState :=
  showToastS
    { s with pdfMessages := [], uploadedPDFs := [],
             rendered := s.rendered.filter (fun m => !(m.dataMode == "pdf")) }
    clearedPDFToast

/-! ## A concrete mid-flight mode-switch trace

Dispatch from history mode, switch to pdf mode while the request is in
flight, then let the response arrive with `success:true`. -/

/-- State and in-flight marker after dispatching from the initial
(history-mode) state. -/
def c1Dispatch : AppState × Option String :=
  sendMessageStart initialState "Ai là vua Quang Trung?" "t0"

/-- The user switches to pdf mode while the request is outstanding. -/
def c1MidSwitch : AppState := switchMode c1Dispatch.1 "pdf"

/-- The response then arrives with `success:true`. -/
def c1Arrival : AppState :=
  sendMessageResume c1MidSwitch "t1"
    (.success "Nguyễn Huệ." (some ["http://example.com/x"]))

/-! ## Helper lemmas -/

/-- The bold pass leaves any star-free list unchanged. -/
theorem replaceBoldFuel_eq_self (fuel : Nat) :
    ∀ l : List Char, (∀ c ∈ l, c ≠ '*') → replaceBoldFuel fuel l = l := by
  induction fuel with
  | zero => intro l _; rfl
  | succ f ih =>
    intro l h
    match l with
    | [] => rfl
    | c :: rest =>
      have hc : (c == '*') = false :=
        beq_eq_false_iff_ne.mpr (h c (List.mem_cons_self c rest))
      have hr : replaceBoldFuel f rest = rest :=
        ih rest (fun x hx => h x (List.mem_cons_of_mem c hx))
      simp [replaceBoldFuel, hc, hr]

/-- The italic pass leaves any star-free list unchanged. -/
theorem replaceItalFuel_eq_self (fuel : Nat) :
    ∀ l : List Char, (∀ c ∈ l, c ≠ '*') → replaceItalFuel fuel l = l := by
  induction fuel with
  | zero => intro l _; rfl
  | succ f ih =>
    intro l h
    match l with
    | [] => rfl
    | c :: rest =>
      have hc : (c == '*') = false :=
        beq_eq_false_iff_ne.mpr (h c (List.mem_cons_self c rest))
      have hr : replaceItalFuel f rest = rest :=
        ih rest (fun x hx => h x (List.mem_cons_of_mem c hx))
      simp [replaceItalFuel, hc, hr]

/-- The newline pass leaves any newline-free list unchanged. -/
theorem replaceNlL_eq_self :
    ∀ l : List Char, (∀ c ∈ l, c ≠ '\n') → replaceNlL l = l := by
  intro l
  induction l with
  | nil => intro _; rfl
  | cons c rest ih =>
    intro h
    have hc : (c == '\n') = false :=
      beq_eq_false_iff_ne.mpr (h c (List.mem_cons_self c rest))
    have hr : replaceNlL rest = rest :=
      ih (fun x hx => h x (List.mem_cons_of_mem c hx))
    simp [replaceNlL, hc, hr]

/-- A list is a `isPrefixOf`-prefix of itself followed by anything. -/
theorem isPrefixOf_append_self (l r : List Char) :
    l.isPrefixOf (l ++ r) = true := by
  induction l with
  | nil => simp [List.isPrefixOf]
  | cons a as ih => simp [List.isPrefixOf, ih]

/-- Removing the pattern from `pat ++ rest` yields `rest`. -/
theorem stripFirst_self_append (pat rest : List Char) (h : pat ≠ []) :
    stripFirst pat (pat ++ rest) = rest := by
  match pat with
  | [] => exact absurd rfl h
  | p :: ps =>
    have hpre : (p :: ps).isPrefixOf ((p :: ps) ++ rest) = true :=
      isPrefixOf_append_self (p :: ps) rest
    show stripFirst (p :: ps) (p :: (ps ++ rest)) = rest
    rw [stripFirst]
    simp only [List.cons_append] at hpre
    simp only [hpre, if_true]
    exact List.drop_left (p :: ps) rest

/-- Removing a pattern that does not occur is the identity. -/
theorem stripFirst_of_not_contains (pat : List Char) :
    ∀ l : List Char, containsSub pat l = false → stripFirst pat l = l := by
  intro l
  induction l with
  | nil => intro _; rfl
  | cons c rest ih =>
    intro h
    simp only [containsSub, Bool.or_eq_false_iff] at h
    simp [stripFirst, h.1, ih h.2]

/-! ## Claim theorems -/

/-- C7: the formatting pipeline is applied in fixed order — bold markers
first, then italic markers, then newlines to line breaks — and on the
input `"**bold** and *italic*\nline2"` it produces markup with a bold
span, an italic span, and a line break preceding `"line2"`. -/
theorem c7_format_pipeline_order :
    formatMessage "**bold** and *italic*\nline2"
        = "<strong>bold</strong> and <em>italic</em><br>line2" ∧
    ∀ s : String,
      formatMessage s = ⟨replaceNlL (replaceItalL (replaceBoldL s.data))⟩ :=
  ⟨by decide, fun _ => rfl⟩

/-- C10: `formatMessage` performs no HTML escaping — every content string
with no `'*'` and no newline comes back verbatim, so HTML metacharacters
such as `<`, `>` and `&` flow unchanged into the rendered markup. -/
theorem c10_no_html_escaping (s : String)
    (h : ∀ c ∈ s.data, c ≠ '*' ∧ c ≠ '\n') : formatMessage s = s := by
  have hb : replaceBoldL s.data = s.data :=
    replaceBoldFuel_eq_self s.data.length s.data (fun c hc => (h c hc).1)
  have hi : replaceItalL s.data = s.data :=
    replaceItalFuel_eq_self s.data.length s.data (fun c hc => (h c hc).1)
  have hn : replaceNlL s.data = s.data :=
    replaceNlL_eq_self s.data (fun c hc => (h c hc).2)
  show (⟨replaceNlL (replaceItalL (replaceBoldL s.data))⟩ : String) = s
  rw [hb, hi, hn]

/-- Witness for C10 at a concrete input full of HTML metacharacters. -/
theorem c10_witness :
    formatMessage "<script>&amp; \"x\" 1 < 2 > 0</script>"
      = "<script>&amp; \"x\" 1 < 2 > 0</script>" :=
  c10_no_html_escaping _ (by decide)

/-- C8 counterexample: the claim says the reference label is the host
with a leading `"www."` prefix stripped, but the source removes the
first occurrence of `"www."` anywhere in the hostname: for the parsed
hostname `"sub.www.example.com"` (which has no leading `"www."`, so the
claim predicts the label equals the hostname) the code produces
`"sub.example.com"`. -/
theorem c8_counterexample :
    getDomainFromUrl (some "sub.www.example.com") = "sub.example.com" ∧
    "www.".data.isPrefixOf "sub.www.example.com".data = false ∧
    getDomainFromUrl (some "sub.www.example.com") ≠ "sub.www.example.com" := by
  decide

/-- C8 amended: the displayed label is the parsed hostname with the first
occurrence of the substring `"www."` removed — in particular a hostname
beginning with `"www."` loses exactly that prefix and a hostname not
containing `"www."` is unchanged — the label is the fixed placeholder
when the URL fails to parse, and derivation is a total function. -/
theorem c8_domain_label :
    (∀ rest : String,
        getDomainFromUrl (some ⟨'w' :: 'w' :: 'w' :: '.' :: rest.data⟩) = rest) ∧
    (∀ host : String, containsSub wwwPattern host.data = false →
        getDomainFromUrl (some host) = host) ∧
    getDomainFromUrl none = "Nguồn tham khảo" := by
  refine ⟨fun rest => ?_, fun host h => ?_, rfl⟩
  · show (⟨stripFirst wwwPattern (wwwPattern ++ rest.data)⟩ : String) = rest
    rw [stripFirst_self_append wwwPattern rest.data (by decide)]
  · show (⟨stripFirst wwwPattern host.data⟩ : String) = host
    rw [stripFirst_of_not_contains wwwPattern host.data h]

/-- Witness for C8 at concrete hostnames. -/
theorem c8_witness : getDomainFromUrl (some "example.com") = "example.com" :=
  c8_domain_label.2.1 "example.com" (by decide)

/-- Invariant preservation: one forEach step of `handleFileSelect` keeps
the (name, size) keys pairwise distinct. -/
theorem noDupKey_addCandidate (pdfs : List StagedPDF) (f : FileCandidate)
    (h : NoDupKey pdfs) : NoDupKey (addCandidate pdfs f) := by
  unfold addCandidate
  split
  · split
    · exact h
    · split
      · exact h
      · rename_i hany
        refine List.pairwise_append.mpr ⟨h, List.pairwise_singleton _ _, ?_⟩
        intro a ha b hb hk
        rw [List.mem_singleton] at hb
        subst hb
        simp only [keyClash] at hk
        exact hany (List.any_eq_true.mpr ⟨a, ha, by simp [hk.1, hk.2]⟩)
  · exact h

/-- Invariant preservation over a whole file-select batch. -/
theorem noDupKey_handleFileSelect :
    ∀ (files : List FileCandidate) (pdfs : List StagedPDF),
      NoDupKey pdfs → NoDupKey (handleFileSelect pdfs files) := by
  intro files
  induction files with
  | nil => intro pdfs h; exact h
  | cons f rest ih =>
    intro pdfs h
    exact ih (addCandidate pdfs f) (noDupKey_addCandidate pdfs f h)

/-- Invariant preservation by `removePDFFile`. -/
theorem noDupKey_removePDFFile (pdfs : List StagedPDF) (fileId : Nat)
    (h : NoDupKey pdfs) : NoDupKey (removePDFFile pdfs fileId) := by
  unfold removePDFFile
  split
  · exact List.Pairwise.sublist (List.eraseIdx_sublist pdfs _) h
  · exact h

/-- Invariant preservation over any operation sequence. -/
theorem noDupKey_foldl_ops :
    ∀ (ops : List StagerOp) (pdfs : List StagedPDF),
      NoDupKey pdfs → NoDupKey (ops.foldl applyStagerOp pdfs) := by
  intro ops
  induction ops with
  | nil => intro pdfs h; exact h
  | cons op rest ih =>
    intro pdfs h
    refine ih (applyStagerOp pdfs op) ?_
    cases op with
    | select files => exact noDupKey_handleFileSelect files pdfs h
    | remove fileId => exact noDupKey_removePDFFile pdfs fileId h
    | clear => exact List.Pairwise.nil

/-- C5: after any sequence of file-select, remove and clear operations,
no two staged entries share the (name, size) key; an add whose key is
already staged leaves the set unchanged (rejected, not merged); and one
candidate's rejection does not block the remaining candidates of the
same batch. -/
theorem c5_upload_key_unique :
    (∀ ops : List StagerOp, NoDupKey (runStagerOps ops)) ∧
    (∀ (pdfs : List StagedPDF) (f : FileCandidate),
        pdfs.any (fun p => p.name == f.name && p.size == f.size) = true →
        addCandidate pdfs f = pdfs) ∧
    (∀ (pdfs : List StagedPDF) (f : FileCandidate)
        (rest : List FileCandidate),
        addCandidate pdfs f = pdfs →
        handleFileSelect pdfs (f :: rest) = handleFileSelect pdfs rest) := by
  refine ⟨fun ops => noDupKey_foldl_ops ops [] List.Pairwise.nil, ?_, ?_⟩
  · intro pdfs f h
    unfold addCandidate
    split
    · split
      · rfl
      · simp [h]
    · rfl
  · intro pdfs f rest h
    show List.foldl addCandidate (addCandidate pdfs f) rest
        = List.foldl addCandidate pdfs rest
    rw [h]

/-- Witness for C5: a duplicate (name, size) add is rejected, and its
rejection does not block the next candidate of the batch. -/
theorem c5_witness :
    addCandidate [⟨"a.pdf", 5, 1⟩] ⟨"a.pdf", 5, "application/pdf", 2⟩
        = [⟨"a.pdf", 5, 1⟩] ∧
    handleFileSelect [⟨"a.pdf", 5, 1⟩]
        [⟨"a.pdf", 5, "application/pdf", 2⟩, ⟨"b.pdf", 7, "application/pdf", 3⟩]
      = handleFileSelect [⟨"a.pdf", 5, 1⟩] [⟨"b.pdf", 7, "application/pdf", 3⟩] :=
  ⟨c5_upload_key_unique.2.1 _ _ (by decide),
   c5_upload_key_unique.2.2 _ _ _ (c5_upload_key_unique.2.1 _ _ (by decide))⟩

/-- C1 counterexample: the claim says the AI response lands in the thread
active at dispatch time, but app.js line 146 re-reads `currentMode` after
the `await`: dispatching from history mode, switching to pdf mode
mid-flight, and receiving `success:true` leaves no AI message in the
history thread — the answer lands in the pdf thread instead. -/
theorem c1_counterexample :
    c1Dispatch.2 = some "history" ∧
    (c1Arrival.historyMessages.filter (fun m => m.sender == "ai")).length = 0 ∧
    c1Arrival.pdfMessages
      = [⟨"Nguyễn Huệ.", "ai", some ["http://example.com/x"], "t1"⟩] := by
  decide

/-- C1 amended: on structural success the AI response message is appended
to the thread of the mode current at arrival time — `currentMode` is
re-read after the network call — so a mid-flight mode switch redirects
the AI response to the newly active thread while the dispatch-time
thread (which already holds the user message) receives nothing. -/
theorem c1_arrival_mode_binding (s : AppState) (answer now : String)
    (urls : Option (List String)) :
    (s.currentMode = "history" →
        (sendMessageResume s now (.success answer urls)).historyMessages
            = s.historyMessages ++ [⟨answer, "ai", urls, now⟩] ∧
        (sendMessageResume s now (.success answer urls)).pdfMessages
            = s.pdfMessages) ∧
    (s.currentMode ≠ "history" →
        (sendMessageResume s now (.success answer urls)).pdfMessages
            = s.pdfMessages ++ [⟨answer, "ai", urls, now⟩] ∧
        (sendMessageResume s now (.success answer urls)).historyMessages
            = s.historyMessages) := by
  constructor
  · intro h
    simp [sendMessageResume, addMessageS, hideTypingIndicatorS, h]
  · intro h
    simp [sendMessageResume, addMessageS, hideTypingIndicatorS, h]

/-- Witness for C1 (amended) in the history-mode arrival case. -/
theorem c1_witness :
    (sendMessageResume initialState "t" (.success "A" none)).historyMessages
        = initialState.historyMessages ++ [⟨"A", "ai", none, "t"⟩] ∧
    (sendMessageResume initialState "t" (.success "A" none)).pdfMessages
        = initialState.pdfMessages :=
  (c1_arrival_mode_binding initialState "A" "t" none).1 rfl

/-- C2: every dispatch that passes validation and issues a fetch leaves
the in-flight guard set, and every outcome of the awaited response —
structural success, backend-reported failure, or transport failure /
thrown error — resets the guard to false with exactly one call to
`hideTypingIndicator`, so no outcome leaves the guard stuck. -/
theorem c2_guard_release :
    (∀ (s s' : AppState) (input now dispatchMode : String),
        sendMessageStart s input now = (s', some dispatchMode) →
        s'.isTyping = true ∧ s'.netCalls = s.netCalls + 1) ∧
    (∀ (s : AppState) (now : String) (o : FetchOutcome),
        (sendMessageResume s now o).isTyping = false ∧
        (sendMessageResume s now o).hideCalls = s.hideCalls + 1) := by
  constructor
  · intro s s' input now dispatchMode h
    simp only [sendMessageStart] at h
    by_cases h1 : jsTrim input = "" ∨ s.isTyping = true
    · rw [if_pos h1] at h
      simp at h
    · rw [if_neg h1] at h
      by_cases h2 : s.currentMode = "pdf" ∧ s.uploadedPDFs.length = 0
      · rw [if_pos h2] at h
        simp at h
      · rw [if_neg h2] at h
        by_cases h3 : s.currentMode = "history" ∨ s.currentMode = "pdf"
        · rw [if_pos h3] at h
          injection h with ha hb
          subst ha
          refine ⟨rfl, ?_⟩
          simp only [showTypingIndicatorS, addMessageS]
          split <;> rfl
        · rw [if_neg h3] at h
          simp at h
  · intro s now o
    cases o with
    | success answer urls =>
      by_cases h : s.currentMode = "history" <;>
        simp [sendMessageResume, addMessageS, hideTypingIndicatorS, h]
    | backendFailure =>
      simp [sendMessageResume, addMessageS, hideTypingIndicatorS]
    | transportFailure error =>
      simp [sendMessageResume, addMessageS, hideTypingIndicatorS]

/-- Witness for C2 at a concrete dispatch from the initial state. -/
theorem c2_witness :
    ({ currentMode := "history", isTyping := true,
       historyMessages := [⟨"Nhà Trần?", "user", none, "t"⟩],
       pdfMessages := [], uploadedPDFs := [],
       rendered := [⟨"Nhà Trần?", "user", none, "history"⟩],
       toasts := [], hideCalls := 0, netCalls := 1 } : AppState).isTyping
        = true ∧
    ({ currentMode := "history", isTyping := true,
       historyMessages := [⟨"Nhà Trần?", "user", none, "t"⟩],
       pdfMessages := [], uploadedPDFs := [],
       rendered := [⟨"Nhà Trần?", "user", none, "history"⟩],
       toasts := [], hideCalls := 0, netCalls := 1 } : AppState).netCalls
        = initialState.netCalls + 1 :=
  c2_guard_release.1 initialState _ "Nhà Trần?" "t" "history" (by decide)

/-- C3: a backend-reported failure and a transport failure each append
exactly one fixed localized fallback AI message to the rendered
conversation (and nothing to either stored thread), and the state after
a transport failure does not depend on the technical error, which is
therefore never shown to the user. -/
theorem c3_failure_fallback (s : AppState) (now error : String) :
    (sendMessageResume s now .backendFailure).rendered
        = s.rendered ++ [⟨backendFallback, "ai", none, s.currentMode⟩] ∧
    (sendMessageResume s now .backendFailure).historyMessages
        = s.historyMessages ∧
    (sendMessageResume s now .backendFailure).pdfMessages = s.pdfMessages ∧
    (sendMessageResume s now (.transportFailure error)).rendered
        = s.rendered ++ [⟨transportFallback, "ai", none, s.currentMode⟩] ∧
    (sendMessageResume s now (.transportFailure error)).historyMessages
        = s.historyMessages ∧
    (sendMessageResume s now (.transportFailure error)).pdfMessages
        = s.pdfMessages ∧
    sendMessageResume s now (.transportFailure error)
        = sendMessageResume s now (.transportFailure "") :=
  ⟨rfl, rfl, rfl, rfl, rfl, rfl, rfl⟩

/-- C4: with empty or whitespace-only text, with a request already in
flight, or in pdf mode with no staged upload, `sendMessage` issues no
fetch and appends no message: both threads, the upload set and the
rendered view are unchanged. -/
theorem c4_validation_gates (s : AppState) (input now : String)
    (h : jsTrim input = "" ∨ s.isTyping = true ∨
         (s.currentMode = "pdf" ∧ s.uploadedPDFs.length = 0)) :
    (sendMessageStart s input now).2 = none ∧
    (sendMessageStart s input now).1.netCalls = s.netCalls ∧
    (sendMessageStart s input now).1.historyMessages = s.historyMessages ∧
    (sendMessageStart s input now).1.pdfMessages = s.pdfMessages ∧
    (sendMessageStart s input now).1.uploadedPDFs = s.uploadedPDFs ∧
    (sendMessageStart s input now).1.rendered = s.rendered := by
  rcases h with h | h | h
  · simp [sendMessageStart, h]
  · simp [sendMessageStart, h]
  · by_cases h1 : jsTrim input = "" ∨ s.isTyping = true
    · simp [sendMessageStart, h1]
    · simp [sendMessageStart, h1, h, showToastS]

/-- Witness for C4 on a whitespace-only input. -/
theorem c4_witness :
    (sendMessageStart initialState "   " "t").2 = none ∧
    (sendMessageStart initialState "   " "t").1.netCalls
        = initialState.netCalls ∧
    (sendMessageStart initialState "   " "t").1.historyMessages
        = initialState.historyMessages ∧
    (sendMessageStart initialState "   " "t").1.pdfMessages
        = initialState.pdfMessages ∧
    (sendMessageStart initialState "   " "t").1.uploadedPDFs
        = initialState.uploadedPDFs ∧
    (sendMessageStart initialState "   " "t").1.rendered
        = initialState.rendered :=
  c4_validation_gates initialState "   " "t" (Or.inl (by decide))

/-- C6 counterexample: the claim says `switchMode` with a mode outside
the two valid values is a no-op on `currentMode`, but app.js line 328
assigns `currentMode = mode` before any check: `switchMode("bogus")`
changes `currentMode`. -/
theorem c6_counterexample :
    (switchMode initialState "bogus").currentMode
      ≠ initialState.currentMode := by
  decide

/-- C6 amended: `switchMode(mode)` with any mode outside the set
containing history and pdf still sets `currentMode` to that value (the
assignment precedes the validity check) but changes nothing else — both
message threads and the rendered view are left unchanged. -/
theorem c6_invalid_mode (s : AppState) (mode : String)
    (h1 : mode ≠ "history") (h2 : mode ≠ "pdf") :
    switchMode s mode = { s with currentMode := mode } := by
  simp [switchMode, h1, h2]

/-- Witness for C6 (amended) at a concrete invalid mode. -/
theorem c6_witness :
    switchMode initialState "bogus"
      = { initialState with currentMode := "bogus" } :=
  c6_invalid_mode initialState "bogus" (by decide) (by decide)

/-- C9: the history-clear confirmation empties exactly the history thread
(pdf thread, upload set and the pdf-tagged rendered nodes untouched),
and the pdf-clear confirmation empties exactly the pdf thread together
with the upload set (history thread and history-tagged rendered nodes
untouched). -/
theorem c9_clear_isolation (s : AppState) :
    (clearHistoryConfirmed s).historyMessages = [] ∧
    (clearHistoryConfirmed s).pdfMessages = s.pdfMessages ∧
    (clearHistoryConfirmed s).uploadedPDFs = s.uploadedPDFs ∧
    (clearHistoryConfirmed s).rendered.filter (fun m => m.dataMode == "pdf")
        = s.rendered.filter (fun m => m.dataMode == "pdf") ∧
    (clearPDFChatConfirmed s).pdfMessages = [] ∧
    (clearPDFChatConfirmed s).uploadedPDFs = [] ∧
    (clearPDFChatConfirmed s).historyMessages = s.historyMessages ∧
    (clearPDFChatConfirmed s).rendered.filter (fun m => m.dataMode == "history")
        = s.rendered.filter (fun m => m.dataMode == "history") := by
  refine ⟨rfl, rfl, rfl, ?_, rfl, rfl, rfl, ?_⟩
  · show (s.rendered.filter fun m => !(m.dataMode == "history")).filter
        (fun m => m.dataMode == "pdf")
      = s.rendered.filter (fun m => m.dataMode == "pdf")
    rw [List.filter_filter]
    refine List.filter_congr ?_
    intro m _
    cases hm : m.dataMode == "pdf" with
    | false => simp [hm]
    | true =>
      have hd : m.dataMode = "pdf" := eq_of_beq hm
      simp [hm, hd]
  · show (s.rendered.filter fun m => !(m.dataMode == "pdf")).filter
        (fun m => m.dataMode == "history")
      = s.rendered.filter (fun m => m.dataMode == "history")
    rw [List.filter_filter]
    refine List.filter_congr ?_
    intro m _
    cases hm : m.dataMode == "history" with
    | false => simp [hm]
    | true =>
      have hd : m.dataMode = "history" := eq_of_beq hm
      simp [hm, hd]
